import Mathlib

/-!
Shallow embedding of the Bank-Policies-Chatbot query pipeline
(src/query_handler.py, src/rag_system.py, src/config.py).

Modelling conventions:
* Python strings are Lean `String`s; `str.lower()/strip()/split()` are embedded
  as `pyLower`, `pyStrip`, `pySplit` over the ASCII whitespace set.
* Python `float(tok)` is embedded as `pyFloat?`, returning an exact value
  `num / den` as an unreduced integer pair (`PyFloat`).  Sign, decimal point
  and exponent forms are covered; the `inf`/`nan` and underscore forms of the
  Python grammar are not representable and are omitted.  The queries of the
  claims only use exactly-representable decimal literals, so exact rational
  values coincide with the Python float values there.
* The external collaborators (LLM provider, retriever, user directory) are an
  oracle `Env`: the n-th LLM call returns `env.llm n`, the n-th retrieval
  returns `env.retrieve n` (an `Except` error models a raised exception), the
  directory write returns `env.applyOutcome` and the directory refresh returns
  `env.refreshResult`.  A `Trace` records every LLM call (with its temperature
  and output-token ceiling), every retrieval, and every directory write, so
  call-count properties are statable.
* The directory's `remaining_leaves` cell is modelled by its rendered string
  (the code only ever interpolates it into messages).
-/

namespace BankBot

/-- ASCII whitespace recognised by Python `str.strip()` / `str.split()`. -/
def isPySpace (c : Char) : Bool :=
  c == ' ' || c == '\t' || c == '\n' || c == '\r' || c == '\x0b' || c == '\x0c'

/-- Remove leading and trailing whitespace from a character list. -/
def stripList (l : List Char) : List Char :=
  ((l.dropWhile isPySpace).reverse.dropWhile isPySpace).reverse

/-- Python `str.strip()`. -/
def pyStrip (s : String) : String := String.mk (stripList s.data)

/-- Python `str.lower()` (ASCII case folding). -/
def pyLower (s : String) : String := String.mk (s.data.map Char.toLower)

/-- Helper for `pySplit`: accumulates the current word (reversed). -/
def pySplitAux : List Char → List Char → List (List Char)
  | [], acc => if acc.isEmpty then [] else [acc.reverse]
  | c :: t, acc =>
      if isPySpace c then
        if acc.isEmpty then pySplitAux t [] else acc.reverse :: pySplitAux t []
      else pySplitAux t (c :: acc)

/-- Python `str.split()` with no separator: split on whitespace runs, no empty tokens. -/
def pySplit (s : String) : List String := (pySplitAux s.data []).map String.mk

/-- Python substring test `needle in hay` on character lists. -/
def listContains (needle : List Char) : List Char → Bool
  | [] => needle.isEmpty
  | c :: t => needle.isPrefixOf (c :: t) || listContains needle t

/-- Python `sub in s`. -/
def strContains (s sub : String) : Bool := listContains sub.data s.data

/-- Python `s.startswith(p)`. -/
def strStartsWith (s p : String) : Bool := p.data.isPrefixOf s.data

/-- Python `s.count(". ")`: non-overlapping occurrences of a period followed by a space. -/
def countDotSpace : List Char → Nat
  | '.' :: ' ' :: rest => countDotSpace rest + 1
  | _ :: rest => countDotSpace rest
  | [] => 0

/-- Exact value of a parsed Python float literal, kept as an unreduced pair
`num / den` (the parser only produces positive powers of ten as `den`). -/
structure PyFloat where
  num : Int
  den : Nat
deriving DecidableEq

/-- The rational value of a parsed number. -/
def PyFloat.toRat (d : PyFloat) : ℚ := (d.num : ℚ) / (d.den : ℚ)

/-- Numeric value of a digit list (most significant first). -/
def digitsToNat (l : List Char) : Nat :=
  l.foldl (fun a c => 10 * a + (c.toNat - '0'.toNat)) 0

/-- A non-empty all-digit list, or failure. -/
def parseDigits (l : List Char) : Option Nat :=
  if l = [] then none
  else if l.all Char.isDigit then some (digitsToNat l) else none

/-- Mantissa part of a Python float literal: `digits`, `digits.digits`,
`digits.` or `.digits`. -/
def parseMantissa (l : List Char) : Option PyFloat :=
  match l.splitOn '.' with
  | [d] => (parseDigits d).map (fun n => PyFloat.mk (Int.ofNat n) 1)
  | [i, f] =>
      if i = [] && f = [] then none
      else if i.all Char.isDigit && f.all Char.isDigit then
        some (PyFloat.mk (Int.ofNat (digitsToNat i * 10 ^ f.length + digitsToNat f)) (10 ^ f.length))
      else none
  | _ => none

/-- Exponent part of a Python float literal (after `e`/`E`). -/
def parseExp (l : List Char) : Option Int :=
  match l with
  | '+' :: r => (parseDigits r).map Int.ofNat
  | '-' :: r => (parseDigits r).map (fun n => -(Int.ofNat n))
  | r => (parseDigits r).map Int.ofNat

/-- Scale a mantissa by `10 ^ e`. -/
def applyExp (d : PyFloat) (e : Int) : PyFloat :=
  if 0 ≤ e then PyFloat.mk (d.num * (10 : Int) ^ e.toNat) d.den
  else PyFloat.mk d.num (d.den * 10 ^ (-e).toNat)

/-- Unsigned Python float literal: mantissa with optional `e`/`E` exponent. -/
def parseUnsigned (l : List Char) : Option PyFloat :=
  match l.splitOnP (fun c => c == 'e' || c == 'E') with
  | [m] => parseMantissa m
  | [m, e] =>
      match parseMantissa m, parseExp e with
      | some d, some z => some (applyExp d z)
      | _, _ => none
  | _ => none

/-- Python `float(tok)` on a whitespace-free token (decimal grammar). -/
def pyFloat? (s : String) : Option PyFloat :=
  match s.data with
  | '+' :: r => parseUnsigned r
  | '-' :: r => (parseUnsigned r).map (fun d => PyFloat.mk (-d.num) d.den)
  | r => parseUnsigned r

/-- The `for part in parts: try: days = float(part); break` loop of
`_handle_leave_application`: first token that parses as a float. -/
def firstFloatToken : List String → Option PyFloat
  | [] => none
  | tok :: rest =>
      match pyFloat? tok with
      | some d => some d
      | none => firstFloatToken rest

/-- The intents of §4.1, as classified by the `if` chain of `handle_query`. -/
inductive Intent
  | leaveApply
  | leaveBalance
  | greeting
  | help
  | thanks
  | policyQuery
deriving DecidableEq

/-- Balance keywords of `handle_query` (line 33). -/
def balanceTerms : List String :=
  ["leave balance", "remaining leaves", "how many leaves", "my leaves"]

/-- Greeting keywords of `handle_query` (line 38). -/
def greetingTerms : List String :=
  ["hello", "hi", "hey", "good morning", "good afternoon"]

/-- Help keywords of `handle_query` (line 42). -/
def helpTerms : List String :=
  ["help", "what can you do", "how to use", "commands"]

/-- Thanks keywords of `handle_query` (line 46). -/
def thanksTerms : List String :=
  ["thank you", "thanks", "appreciate"]

/-- `any(term in q for term in terms)`. -/
def containsAny (s : String) (terms : List String) : Bool :=
  terms.any (fun t => strContains s t)

/-- `query.lower().strip()` (line 26). -/
def normalize (q : String) : String := pyStrip (pyLower q)

/-- The intent selected by the `if` chain of `handle_query` (lines 29-49),
first match wins. -/
def classifyIntent (q : String) : Intent :=
  if strStartsWith (normalize q) "apply for leave" then Intent.leaveApply
  else if containsAny (normalize q) balanceTerms then Intent.leaveBalance
  else if containsAny (normalize q) greetingTerms then Intent.greeting
  else if containsAny (normalize q) helpTerms then Intent.help
  else if containsAny (normalize q) thanksTerms then Intent.thanks
  else Intent.policyQuery

/-- Modelled from the spec (§4.1): the classification described in the spec's
own words — strict priority order over the already-normalized query, first
match wins.  Used only to state the refinement half of claim C2. -/
def classifySpecModel (n : String) : Intent :=
  if strStartsWith n "apply for leave" then Intent.leaveApply
  else if containsAny n balanceTerms then Intent.leaveBalance
  else if containsAny n greetingTerms then Intent.greeting
  else if containsAny n helpTerms then Intent.help
  else if containsAny n thanksTerms then Intent.thanks
  else Intent.policyQuery

/-- The authenticated-user dictionary (`self.user`).  `username` is always
present after authentication; `remaining_leaves` is the directory cell,
modelled by its rendered string, `none` when the key is absent. -/
structure UserContext where
  username : String
  grade : Option String
  remaining_leaves : Option String

/-- Outcome of the directory's `apply_for_leave`: a returned boolean, or a
raised exception (`ValueError` or any other), with its description. -/
inductive ApplyOutcome
  | ok (success : Bool)
  | raised (isValueError : Bool) (msg : String)

/-- Oracle for the external collaborators, indexed by call order. -/
structure Env where
  chainReady : Bool
  retrieve : Nat → Except String String
  llm : Nat → Except String String
  applyOutcome : ApplyOutcome
  refreshResult : Option UserContext

/-- Calls recorded during one `handle_query` invocation.  Each LLM call is
logged with its (temperature, max-output-token) generation config; each
directory write with its (username, days) arguments. -/
structure Trace where
  llmLog : List (ℚ × Nat)
  retrievalCount : Nat
  applyCalls : List (String × PyFloat)

/-- The empty trace, at the start of an invocation. -/
def Trace.init : Trace := Trace.mk [] 0 []

namespace Config

/-- `GEMINI_TEMPERATURE = 0.3` (config.py line 28). -/
def GEMINI_TEMPERATURE : ℚ := 3 / 10

/-- `MIN_LEAVE_DAYS = 0.5` (config.py line 32). -/
def MIN_LEAVE_DAYS : ℚ := 1 / 2

/-- `MAX_LEAVE_DAYS = 30` (config.py line 33). -/
def MAX_LEAVE_DAYS : ℚ := 30

/-- `HR_EMAIL` (config.py line 36). -/
def HR_EMAIL : String := "hr@bankname.com"

end Config

/-- `self.hr_contact` set in `QueryHandler.__init__`. -/
def hrContact : String := "hr@bankname.com"

/-- `f"Error processing your query: {str(e)}"` (rag_system.py lines 163, 179). -/
def errText (e : String) : String := "Error processing your query: " ++ e

/-- `PolicyRAGSystem._invoke_gemini` (rag_system.py lines 130-163): primary
call at the configured temperature with an 800-token ceiling; if the trimmed
result has more than 4 occurrences of ". " or more than 600 characters, one
summarization call at temperature 0.3 with a 400-token ceiling, whose trimmed
result replaces the original; any provider exception becomes error text. -/
def invokeGemini (env : Env) (t : Trace) : String × Trace :=
  let t1 := Trace.mk (t.llmLog ++ [(Config.GEMINI_TEMPERATURE, 800)]) t.retrievalCount t.applyCalls
  match env.llm t.llmLog.length with
  | Except.error e => (errText e, t1)
  | Except.ok raw =>
      let result := pyStrip raw
      if 4 < countDotSpace result.data ∨ 600 < result.length then
        let t2 := Trace.mk (t1.llmLog ++ [((3 : ℚ) / 10, 400)]) t1.retrievalCount t1.applyCalls
        match env.llm t1.llmLog.length with
        | Except.error e => (errText e, t2)
        | Except.ok sraw => (pyStrip sraw, t2)
      else (result, t1)

/-- `PolicyRAGSystem.query_policy` (rag_system.py lines 165-179): returns an
initializing notice when the chain is absent; otherwise one retrieval (a
raised retrieval fault is caught and stringified) followed by the Gemini
invocation.  The oracle subsumes the prompt-envelope contents, so the
retrieved context string itself is not consumed further. -/
def queryPolicy (env : Env) (t : Trace) : String × Trace :=
  if env.chainReady = false then ("System initializing, please wait...", t)
  else
    let t1 := Trace.mk t.llmLog (t.retrievalCount + 1) t.applyCalls
    match env.retrieve t.retrievalCount with
    | Except.error e => (errText e, t1)
    | Except.ok _ => invokeGemini env t1

/-- The leave-balance line appended by `_refine_policy_response` (line 117). -/
def balanceLine (v : String) : String :=
  "\n\n💼 **Your current leave balance:** " ++ v ++ " days"

/-- The fallback of `_refine_policy_response` (lines 110-113). -/
def refineFallback : String :=
  "🤔 I couldn\x27t find a clear answer to your question in the bank policies. Please contact HR at **" ++ hrContact ++ "** for assistance."

/-- `QueryHandler._refine_policy_response` (lines 107-119). -/
def refinePolicyResponse (response : String) (u : UserContext) : String :=
  if response = "" ∨ pyStrip response = "" then refineFallback
  else
    pyStrip
      (if strContains (pyLower response) "leave" ∧ u.remaining_leaves.isSome then
        response ++ balanceLine (u.remaining_leaves.getD "")
      else response)

/-- The usage-guidance string of `_handle_leave_application` (line 85). -/
def guidanceMsg : String :=
  "❌ Please specify leave days like: \x27apply for leave 2.5\x27 or \x27apply for leave 1\x27"

/-- The success confirmation of `_handle_leave_application` (lines 91-98);
`rem` is the (possibly refreshed) remaining-leaves cell or the `N/A` sentinel.
The day count is interpolated through `PyFloat.toRat`; the exact digits the
Python float formatter would print are not modelled. -/
def successMsg (d : PyFloat) (rem : String) : String :=
  "✅ **Leave Application Submitted Successfully!**\n\n📊 **Details:**\n• Applied for: **" ++ toString d.toRat ++ " days**\n• Remaining leaves: **" ++ rem ++ " days**\n• Status: **Pending Approval** ⏳\n\nYou will receive confirmation once your application is reviewed."

/-- The fixed failure message of `_handle_leave_application` (line 100). -/
def applyFailedMsg : String :=
  "❌ Leave application failed. Please try again or contact HR."

/-- `QueryHandler._handle_leave_application` (lines 69-105).  `ql` is the
normalized query.  Python's `if not days:` is true both when no token parsed
and when the parsed value is zero (`d.num = 0`, since the parser only yields
positive denominators). -/
def handleLeaveApplication (ql : String) (u : UserContext) (env : Env) (t : Trace) : String × Trace :=
  match firstFloatToken (pySplit ql) with
  | none => (guidanceMsg, t)
  | some d =>
      if d.num = 0 then (guidanceMsg, t)
      else
        let t1 := Trace.mk t.llmLog t.retrievalCount (t.applyCalls ++ [(u.username, d)])
        match env.applyOutcome with
        | ApplyOutcome.ok true =>
            (successMsg d ((env.refreshResult.getD u).remaining_leaves.getD "N/A"), t1)
        | ApplyOutcome.ok false => (applyFailedMsg, t1)
        | ApplyOutcome.raised true msg => ("❌ **Application Error:** " ++ msg, t1)
        | ApplyOutcome.raised false msg => ("❌ **Failed to apply for leave:** " ++ msg, t1)

/-- The leave-balance reply of `handle_query` (line 35), after the best-effort
directory refresh. -/
def balanceMsg (rem : String) : String :=
  "💼 Your current leave balance: **" ++ rem ++ " days**"

/-- The greeting reply of `handle_query` (line 39). -/
def greetingMsg (name : String) : String :=
  "Hello " ++ name ++ "! 👋 I\x27m here to help you with bank policy questions and leave applications. What can I assist you with today?"

/-- `QueryHandler._get_help_response` (lines 121-141). -/
def helpResponse : String :=
  "🤖 **I\x27m your Bank Policy Assistant!** Here\x27s what I can help you with:\n\n**📋 Policy Questions:**\n• Medical/Health policies\n• Travel and transport allowances\n• Loan and advance policies\n• Performance bonuses\n• Exit procedures\n\n**🌿 Leave Management:**\n• Check your leave balance\n• Apply for leave (e.g., \x27apply for leave 2\x27)\n• Leave policy information\n\n**💡 Examples:**\n• \x27What is the medical policy?\x27\n• \x27How do I get travel allowance?\x27\n• \x27Apply for leave 1.5\x27\n• \x27What is my leave balance?\x27\n\nJust ask me anything in natural language! 😊"

/-- The thanks reply of `handle_query` (line 47). -/
def thanksMsg : String :=
  "You\x27re welcome! 😊 Feel free to ask me anything else about bank policies or leave applications."

/-- The HR-referral fallback of `handle_query` (lines 59-62), returned when
the policy synthesis is still empty after the single retry. -/
def hrFallback : String :=
  "🤔 I couldn\x27t find a clear answer to your question in the bank policies. Please contact HR at **" ++ hrContact ++ "** for assistance, or try rephrasing your question."

/-- `QueryHandler.handle_query` (lines 24-67), together with the call trace of
the invocation.  The intent dispatch matches the source's sequential `if`
chain (via `classifyIntent`, whose conditions are the source's, in order).
The outer `except` of the policy branch is unreachable in the model because
`queryPolicy` and `refinePolicyResponse` are total: every inner fault is
already stringified where the source catches it. -/
def handleQuery (q : String) (u : UserContext) (env : Env) : String × Trace :=
  match classifyIntent q with
  | Intent.leaveApply => handleLeaveApplication (normalize q) u env Trace.init
  | Intent.leaveBalance =>
      ((balanceMsg ((env.refreshResult.getD u).remaining_leaves.getD "N/A")), Trace.init)
  | Intent.greeting => (greetingMsg u.username, Trace.init)
  | Intent.help => (helpResponse, Trace.init)
  | Intent.thanks => (thanksMsg, Trace.init)
  | Intent.policyQuery =>
      let p1 := queryPolicy env Trace.init
      if p1.1 = "" ∨ pyStrip p1.1 = "" then
        let p2 := queryPolicy env p1.2
        if p2.1 = "" ∨ pyStrip p2.1 = "" then (hrFallback, p2.2)
        else (refinePolicyResponse p2.1 u, p2.2)
      else (refinePolicyResponse p1.1 u, p1.2)

/-- A plain user for concrete evaluations. -/
def u0 : UserContext := UserContext.mk "bob" none none

/-- A benign oracle: everything succeeds, the LLM answers "ok". -/
def env0 : Env :=
  Env.mk true (fun _ => Except.ok "ctx") (fun _ => Except.ok "ok") (ApplyOutcome.ok true) none

/-- Oracle whose primary answer trips the conciseness gate (5 occurrences of
". "), with a short summarization answer. -/
def env4 : Env :=
  Env.mk true (fun _ => Except.ok "ctx")
    (fun n => if n = 0 then Except.ok "a. b. c. d. e. f" else Except.ok " short ")
    (ApplyOutcome.ok true) none

/-- Oracle whose LLM always answers whitespace. -/
def env5 : Env :=
  Env.mk true (fun _ => Except.ok "ctx") (fun _ => Except.ok "  ")
    (ApplyOutcome.ok true) none

/-- Oracle whose first answer is empty and whose second trips the conciseness
gate: the retry performs a second retrieval, a second primary call and a
summarization call. -/
def env7 : Env :=
  Env.mk true (fun _ => Except.ok "ctx")
    (fun n => if n = 0 then Except.ok "" else if n = 1 then Except.ok "a. b. c. d. e. f" else Except.ok "summary")
    (ApplyOutcome.ok true) none

/-- Oracle whose directory write raises a non-ValueError fault. -/
def env9 : Env :=
  Env.mk true (fun _ => Except.ok "ctx") (fun _ => Except.ok "ok")
    (ApplyOutcome.raised false "boom") none

end BankBot

/-! ## Helper lemmas about the string primitives -/

namespace BankBot

theorem string_mk_eq_empty_iff (l : List Char) : String.mk l = "" ↔ l = [] := by
  rw [String.ext_iff]

theorem append_ne_empty (s t : String) (h : s ≠ "") : s ++ t ≠ "" := by
  cases s with
  | mk l =>
    cases t with
    | mk m =>
      intro he
      rw [show String.mk l ++ String.mk m = String.mk (l ++ m) from rfl,
        string_mk_eq_empty_iff, List.append_eq_nil] at he
      exact h (by rw [string_mk_eq_empty_iff]; exact he.1)

theorem stripList_eq_nil_iff (l : List Char) :
    stripList l = [] ↔ ∀ c ∈ l, isPySpace c = true := by
  unfold stripList
  rw [List.reverse_eq_nil_iff, List.dropWhile_eq_nil_iff]
  constructor
  · intro h c hc
    have hsplit := List.takeWhile_append_dropWhile isPySpace l
    rw [← hsplit] at hc
    rcases List.mem_append.mp hc with h1 | h2
    · exact List.mem_takeWhile_imp h1
    · exact h c (List.mem_reverse.mpr h2)
  · intro h x hx
    exact h x ((List.dropWhile_sublist isPySpace).mem (List.mem_reverse.mp hx))

theorem pyStrip_eq_empty_iff (s : String) :
    pyStrip s = "" ↔ ∀ c ∈ s.data, isPySpace c = true := by
  rw [pyStrip, string_mk_eq_empty_iff, stripList_eq_nil_iff]

theorem pyStrip_append_ne (r m : String) (h : pyStrip r ≠ "") : pyStrip (r ++ m) ≠ "" := by
  intro he
  apply h
  rw [pyStrip_eq_empty_iff] at he ⊢
  intro c hc
  exact he c (by rw [String.data_append]; exact List.mem_append.mpr (Or.inl hc))

theorem refine_ne_empty (r : String) (u : UserContext) : refinePolicyResponse r u ≠ "" := by
  unfold refinePolicyResponse
  split
  · rw [refineFallback]; decide
  · rename_i h
    push_neg at h
    split
    · exact pyStrip_append_ne _ _ h.2
    · exact h.2

theorem guidance_ne_empty : guidanceMsg ≠ "" := by decide

theorem successMsg_ne_empty (d : PyFloat) (rem : String) : successMsg d rem ≠ "" := by
  unfold successMsg
  exact append_ne_empty _ _ (append_ne_empty _ _ (append_ne_empty _ _ (append_ne_empty _ _ (by decide))))

theorem handleLeave_ne_empty (ql : String) (u : UserContext) (env : Env) (t : Trace) :
    (handleLeaveApplication ql u env t).1 ≠ "" := by
  unfold handleLeaveApplication
  cases firstFloatToken (pySplit ql) with
  | none => exact guidance_ne_empty
  | some d =>
    dsimp only
    split
    · exact guidance_ne_empty
    · cases env.applyOutcome with
      | ok b =>
        cases b
        · simp only
          rw [applyFailedMsg]; decide
        · exact successMsg_ne_empty _ _
      | raised ve msg =>
        cases ve <;> exact append_ne_empty _ _ (by decide)

/-! ## Infix and counting lemmas -/

theorem listContains_iff (n l : List Char) : listContains n l = true ↔ n <:+: l := by
  induction l with
  | nil =>
    simp only [listContains, List.isEmpty_iff, List.infix_nil]
  | cons c t ih =>
    simp only [listContains, Bool.or_eq_true, List.isPrefixOf_iff_prefix, ih,
      List.infix_cons_iff]

theorem count_dropWhile_of_neg (p : Char → Bool) (c : Char) (hc : p c = false)
    (l : List Char) : (l.dropWhile p).count c = l.count c := by
  conv_rhs => rw [← List.takeWhile_append_dropWhile p l]
  rw [List.count_append]
  have h0 : (l.takeWhile p).count c = 0 := by
    rw [List.count_eq_zero]
    intro hm
    have hpc := List.mem_takeWhile_imp hm
    rw [hc] at hpc
    exact Bool.noConfusion hpc
  omega

theorem count_stripList (c : Char) (hc : isPySpace c = false) (l : List Char) :
    (stripList l).count c = l.count c := by
  unfold stripList
  rw [List.count_reverse, count_dropWhile_of_neg _ _ hc, List.count_reverse,
    count_dropWhile_of_neg _ _ hc]

theorem infix_dropWhile (p : Char → Bool) (n l : List Char) (hne : n ≠ [])
    (hnp : ∀ c ∈ n, p c = false) (h : n <:+: l) : n <:+: l.dropWhile p := by
  induction l with
  | nil => exact absurd (List.infix_nil.mp h) hne
  | cons a t ih =>
    by_cases hpa : p a = true
    · rw [List.dropWhile_cons_of_pos hpa]
      rcases List.infix_cons_iff.mp h with hpre | hinf
      · rcases n with _ | ⟨c, m⟩
        · exact absurd rfl hne
        · have hca := (List.cons_prefix_cons.mp hpre).1
          have hcf := hnp c (List.mem_cons_self c m)
          rw [hca, hpa] at hcf
          exact Bool.noConfusion hcf
      · exact ih hinf
    · rw [List.dropWhile_cons_of_neg hpa]
      exact h

theorem infix_stripList (n l : List Char) (hne : n ≠ [])
    (hnp : ∀ c ∈ n, isPySpace c = false) (h : n <:+: l) : n <:+: stripList l := by
  have h1 : n <:+: l.dropWhile isPySpace := infix_dropWhile _ _ _ hne hnp h
  have h2 : n.reverse <:+: (l.dropWhile isPySpace).reverse := List.reverse_infix.mpr h1
  have h3 : n.reverse <:+: ((l.dropWhile isPySpace).reverse).dropWhile isPySpace :=
    infix_dropWhile _ _ _ (by simpa using hne)
      (fun c hc => hnp c (List.mem_reverse.mp hc)) h2
  have h4 := List.reverse_infix.mpr h3
  simpa [stripList] using h4

theorem infix_of_append_left {n l : List Char} (m : List Char) (h : n <:+: l) :
    n <:+: l ++ m :=
  h.trans (List.prefix_append l m).isInfix

theorem infix_of_append_right {n m : List Char} (l : List Char) (h : n <:+: m) :
    n <:+: l ++ m :=
  h.trans (List.suffix_append l m).isInfix

/-! ## Trace-shape lemmas for the pipeline stages -/

theorem invokeGemini_trace (env : Env) (t : Trace) :
    (invokeGemini env t).2.retrievalCount = t.retrievalCount ∧
    (invokeGemini env t).2.applyCalls = t.applyCalls ∧
    (invokeGemini env t).2.llmLog.length ≤ t.llmLog.length + 2 := by
  unfold invokeGemini
  cases env.llm t.llmLog.length with
  | error e => simp
  | ok raw =>
    dsimp only
    split
    · cases env.llm (t.llmLog ++ [(Config.GEMINI_TEMPERATURE, 800)]).length with
      | error e => simp
      | ok sraw => simp
    · simp

theorem queryPolicy_trace (env : Env) (t : Trace) :
    (queryPolicy env t).2.retrievalCount ≤ t.retrievalCount + 1 ∧
    (queryPolicy env t).2.applyCalls = t.applyCalls ∧
    (queryPolicy env t).2.llmLog.length ≤ t.llmLog.length + 2 := by
  unfold queryPolicy
  split
  · simp
  · cases env.retrieve t.retrievalCount with
    | error e => simp
    | ok ctx =>
      dsimp only
      have h := invokeGemini_trace env (Trace.mk t.llmLog (t.retrievalCount + 1) t.applyCalls)
      exact ⟨by rw [h.1], by rw [h.2.1], h.2.2⟩

theorem handleLeave_trace (ql : String) (u : UserContext) (env : Env) (t : Trace) :
    (handleLeaveApplication ql u env t).2.llmLog = t.llmLog ∧
    (handleLeaveApplication ql u env t).2.retrievalCount = t.retrievalCount ∧
    (handleLeaveApplication ql u env t).2.applyCalls.length ≤ t.applyCalls.length + 1 := by
  unfold handleLeaveApplication
  cases firstFloatToken (pySplit ql) with
  | none => simp
  | some d =>
    dsimp only
    split
    · simp
    · cases env.applyOutcome with
      | ok b => cases b <;> simp
      | raised ve msg => cases ve <;> simp

theorem handleLeave_applyCalls (ql : String) (u : UserContext) (env : Env) (t : Trace) :
    (handleLeaveApplication ql u env t).2.applyCalls = t.applyCalls ∨
    ∃ d, firstFloatToken (pySplit ql) = some d ∧ d.num ≠ 0 ∧
      (handleLeaveApplication ql u env t).2.applyCalls = t.applyCalls ++ [(u.username, d)] := by
  unfold handleLeaveApplication
  cases hp : firstFloatToken (pySplit ql) with
  | none => exact Or.inl rfl
  | some d =>
    dsimp only
    split
    · exact Or.inl rfl
    · rename_i hz
      refine Or.inr ⟨d, rfl, hz, ?_⟩
      cases env.applyOutcome with
      | ok b => cases b <;> simp
      | raised ve msg => cases ve <;> simp

/-! ## Dispatch lemmas -/

theorem classify_of_startsWith (q : String)
    (h : strStartsWith (normalize q) "apply for leave" = true) :
    classifyIntent q = Intent.leaveApply := by
  unfold classifyIntent
  rw [if_pos h]

theorem handleQuery_leaveApply (q : String) (u : UserContext) (env : Env)
    (h : classifyIntent q = Intent.leaveApply) :
    handleQuery q u env = handleLeaveApplication (normalize q) u env Trace.init := by
  unfold handleQuery
  rw [h]

/-! ## Claim theorems -/

/-- Claim C1: for every query string and every UserContext (and every behavior
of the external collaborators), `handle_query` returns a non-empty string; it
is a total function of the model, so no internal error escapes as a fault —
input, backend, provider and empty-result errors are all converted into text. -/
theorem claimC1 (q : String) (u : UserContext) (env : Env) :
    (handleQuery q u env).1 ≠ "" := by
  unfold handleQuery
  cases hc : classifyIntent q
  case leaveApply => exact handleLeave_ne_empty _ _ _ _
  case leaveBalance =>
    show balanceMsg _ ≠ ""
    unfold balanceMsg
    exact append_ne_empty _ _ (append_ne_empty _ _ (by decide))
  case greeting =>
    show greetingMsg _ ≠ ""
    unfold greetingMsg
    exact append_ne_empty _ _ (append_ne_empty _ _ (by decide))
  case help =>
    show helpResponse ≠ ""
    decide
  case thanks =>
    show thanksMsg ≠ ""
    decide
  case policyQuery =>
    dsimp only
    split
    · split
      · show hrFallback ≠ ""
        decide
      · exact refine_ne_empty _ _
    · exact refine_ne_empty _ _

/-- Claim C1 applied at a concrete input. -/
theorem claimC1_witness : (handleQuery "hi" u0 env0).1 ≠ "" := claimC1 "hi" u0 env0

/-- Claim C2: intent classification is a pure function of the lower-cased,
trimmed query evaluated in the fixed priority order (refinement against the
spec-worded classifier); every casing/whitespace variant of
"what is my leave balance" and of each balance keyword routes to LeaveBalance;
repeated classification of the same query yields the same intent. -/
theorem claimC2 :
    (∀ q, classifyIntent q = classifySpecModel (pyStrip (pyLower q))) ∧
    (∀ s, pyStrip (pyLower s) = "what is my leave balance" →
      classifyIntent s = Intent.leaveBalance) ∧
    (∀ s t, t ∈ balanceTerms → pyStrip (pyLower s) = t →
      classifyIntent s = Intent.leaveBalance) ∧
    (∀ q, classifyIntent q = classifyIntent q) := by
  refine ⟨fun q => rfl, ?_, ?_, fun q => rfl⟩
  · intro s h
    unfold classifyIntent
    rw [show normalize s = "what is my leave balance" from h]
    decide
  · intro s t ht h
    have hmem : t = "leave balance" ∨ t = "remaining leaves" ∨
        t = "how many leaves" ∨ t = "my leaves" := by
      simpa [balanceTerms] using ht
    unfold classifyIntent
    rw [show normalize s = t from h]
    rcases hmem with rfl | rfl | rfl | rfl <;> decide

/-- Claim C2 applied at concrete casing/whitespace variants. -/
theorem claimC2_witness :
    classifyIntent "  ReMaInInG LeAvEs  " = Intent.leaveBalance ∧
    classifyIntent " What is MY LEAVE BALANCE " = Intent.leaveBalance := by
  constructor
  · exact claimC2.2.2.1 "  ReMaInInG LeAvEs  " "remaining leaves" (by decide) (by decide)
  · exact claimC2.2.1 " What is MY LEAVE BALANCE " (by decide)

/-! ## Equation lemmas for the synthesis stage -/

theorem invokeGemini_eq_summ (env : Env) (t : Trace) (raw sres : String)
    (h : env.llm t.llmLog.length = Except.ok raw)
    (hc : 4 < countDotSpace (pyStrip raw).data ∨ 600 < (pyStrip raw).length)
    (h2 : env.llm (t.llmLog.length + 1) = Except.ok sres) :
    invokeGemini env t =
      (pyStrip sres,
        Trace.mk (t.llmLog ++ [(Config.GEMINI_TEMPERATURE, 800), ((3 : ℚ) / 10, 400)])
          t.retrievalCount t.applyCalls) := by
  unfold invokeGemini
  rw [h]
  dsimp only
  rw [if_pos hc]
  have h2e : env.llm ((t.llmLog ++ [(Config.GEMINI_TEMPERATURE, 800)]).length) =
      Except.ok sres := by
    rw [List.length_append]
    exact h2
  rw [h2e]
  simp [List.append_assoc]

theorem invokeGemini_eq_summ_err (env : Env) (t : Trace) (raw e : String)
    (h : env.llm t.llmLog.length = Except.ok raw)
    (hc : 4 < countDotSpace (pyStrip raw).data ∨ 600 < (pyStrip raw).length)
    (h2 : env.llm (t.llmLog.length + 1) = Except.error e) :
    invokeGemini env t =
      (errText e,
        Trace.mk (t.llmLog ++ [(Config.GEMINI_TEMPERATURE, 800), ((3 : ℚ) / 10, 400)])
          t.retrievalCount t.applyCalls) := by
  unfold invokeGemini
  rw [h]
  dsimp only
  rw [if_pos hc]
  have h2e : env.llm ((t.llmLog ++ [(Config.GEMINI_TEMPERATURE, 800)]).length) =
      Except.error e := by
    rw [List.length_append]
    exact h2
  rw [h2e]
  simp [List.append_assoc]

theorem invokeGemini_eq_plain (env : Env) (t : Trace) (raw : String)
    (h : env.llm t.llmLog.length = Except.ok raw)
    (hc : ¬(4 < countDotSpace (pyStrip raw).data ∨ 600 < (pyStrip raw).length)) :
    invokeGemini env t =
      (pyStrip raw,
        Trace.mk (t.llmLog ++ [(Config.GEMINI_TEMPERATURE, 800)])
          t.retrievalCount t.applyCalls) := by
  unfold invokeGemini
  rw [h]
  dsimp only
  rw [if_neg hc]

theorem notCond_of_strip_empty (raw : String) (h : pyStrip raw = "") :
    ¬(4 < countDotSpace (pyStrip raw).data ∨ 600 < (pyStrip raw).length) := by
  rw [h]
  decide

theorem queryPolicy_eq (env : Env) (t : Trace) (ctx : String)
    (hr : env.chainReady = true)
    (hc : env.retrieve t.retrievalCount = Except.ok ctx) :
    queryPolicy env t =
      invokeGemini env (Trace.mk t.llmLog (t.retrievalCount + 1) t.applyCalls) := by
  unfold queryPolicy
  rw [hr]
  rw [if_neg (by decide)]
  rw [hc]

/-- Claim C4: in the synthesis path, when the trimmed primary LLM result has
more than 4 occurrences of ". " or length above 600, exactly one additional
summarization call is made, at temperature 0.3 with a 400-token output
ceiling, and its trimmed result replaces the original; otherwise the primary
trimmed result is returned with no second call. -/
theorem claimC4 (env : Env) (raw : String) (h : env.llm 0 = Except.ok raw) :
    ((4 < countDotSpace (pyStrip raw).data ∨ 600 < (pyStrip raw).length) →
      (invokeGemini env Trace.init).2.llmLog =
        [(Config.GEMINI_TEMPERATURE, 800), ((3 : ℚ) / 10, 400)] ∧
      (∀ sraw, env.llm 1 = Except.ok sraw →
        (invokeGemini env Trace.init).1 = pyStrip sraw)) ∧
    (¬(4 < countDotSpace (pyStrip raw).data ∨ 600 < (pyStrip raw).length) →
      (invokeGemini env Trace.init).1 = pyStrip raw ∧
      (invokeGemini env Trace.init).2.llmLog = [(Config.GEMINI_TEMPERATURE, 800)]) := by
  have h0 : env.llm Trace.init.llmLog.length = Except.ok raw := h
  constructor
  · intro hcond
    constructor
    · cases h1 : env.llm 1 with
      | ok sres =>
        rw [invokeGemini_eq_summ env Trace.init raw sres h0 hcond h1]
        rfl
      | error e =>
        rw [invokeGemini_eq_summ_err env Trace.init raw e h0 hcond h1]
        rfl
    · intro sraw h1
      rw [invokeGemini_eq_summ env Trace.init raw sraw h0 hcond h1]
  · intro hcond
    rw [invokeGemini_eq_plain env Trace.init raw h0 hcond]
    exact ⟨rfl, rfl⟩

/-- Claim C4 applied to a concrete over-long primary answer (five ". "
markers) with a concrete summarization answer. -/
theorem claimC4_witness :
    (invokeGemini env4 Trace.init).2.llmLog =
      [(Config.GEMINI_TEMPERATURE, 800), ((3 : ℚ) / 10, 400)] ∧
    (invokeGemini env4 Trace.init).1 = pyStrip " short " := by
  have h := claimC4 env4 "a. b. c. d. e. f" rfl
  have h1 := h.1 (by decide)
  exact ⟨h1.1, h1.2 " short " rfl⟩

/-- Claim C5: on a PolicyQuery-intent query, when the synthesis result is
whitespace-only, synthesis is retried exactly once (the final trace holds
exactly two LLM calls), and when the retry is also whitespace-only the fixed
HR-referral fallback (containing the HR contact address) is returned. -/
theorem claimC5 (q : String) (u : UserContext) (env : Env) (r0 r1 c0 c1 : String)
    (hq : classifyIntent q = Intent.policyQuery)
    (hready : env.chainReady = true)
    (hret0 : env.retrieve 0 = Except.ok c0)
    (hret1 : env.retrieve 1 = Except.ok c1)
    (hllm0 : env.llm 0 = Except.ok r0) (he0 : pyStrip r0 = "")
    (hllm1 : env.llm 1 = Except.ok r1) (he1 : pyStrip r1 = "") :
    (handleQuery q u env).1 = hrFallback ∧
    (handleQuery q u env).2.llmLog.length = 2 ∧
    strContains hrFallback hrContact = true := by
  have e1 : queryPolicy env Trace.init =
      (pyStrip r0, Trace.mk [(Config.GEMINI_TEMPERATURE, 800)] 1 []) := by
    rw [queryPolicy_eq env Trace.init c0 hready hret0]
    exact invokeGemini_eq_plain env (Trace.mk [] 1 []) r0 hllm0
      (notCond_of_strip_empty r0 he0)
  have e2 : queryPolicy env (Trace.mk [(Config.GEMINI_TEMPERATURE, 800)] 1 []) =
      (pyStrip r1,
        Trace.mk [(Config.GEMINI_TEMPERATURE, 800), (Config.GEMINI_TEMPERATURE, 800)] 2 []) := by
    rw [queryPolicy_eq env (Trace.mk [(Config.GEMINI_TEMPERATURE, 800)] 1 []) c1 hready hret1]
    exact invokeGemini_eq_plain env
      (Trace.mk [(Config.GEMINI_TEMPERATURE, 800)] 2 []) r1 hllm1
      (notCond_of_strip_empty r1 he1)
  unfold handleQuery
  rw [hq]
  dsimp only
  rw [e1]
  dsimp only
  rw [he0, if_pos (Or.inl rfl)]
  rw [e2]
  dsimp only
  rw [he1, if_pos (Or.inl rfl)]
  exact ⟨rfl, rfl, by decide⟩

/-- Claim C5 applied to a concrete oracle whose LLM always answers
whitespace. -/
theorem claimC5_witness :
    (handleQuery "zzz" u0 env5).1 = hrFallback ∧
    (handleQuery "zzz" u0 env5).2.llmLog.length = 2 ∧
    strContains hrFallback hrContact = true :=
  claimC5 "zzz" u0 env5 "  " "  " "ctx" "ctx" (by decide) rfl rfl rfl rfl
    (by decide) rfl (by decide)

/-! ## Equation lemmas for the leave workflow -/

theorem handleLeave_none (ql : String) (u : UserContext) (env : Env) (t : Trace)
    (h : firstFloatToken (pySplit ql) = none) :
    handleLeaveApplication ql u env t = (guidanceMsg, t) := by
  unfold handleLeaveApplication
  rw [h]

theorem handleLeave_zero (ql : String) (u : UserContext) (env : Env) (t : Trace)
    (d : PyFloat) (h : firstFloatToken (pySplit ql) = some d) (hz : d.num = 0) :
    handleLeaveApplication ql u env t = (guidanceMsg, t) := by
  unfold handleLeaveApplication
  rw [h]
  dsimp only
  rw [if_pos hz]

theorem handleLeave_calls (ql : String) (u : UserContext) (env : Env) (t : Trace)
    (d : PyFloat) (h : firstFloatToken (pySplit ql) = some d) (hz : d.num ≠ 0) :
    (handleLeaveApplication ql u env t).2.applyCalls = t.applyCalls ++ [(u.username, d)] := by
  unfold handleLeaveApplication
  rw [h]
  dsimp only
  rw [if_neg hz]
  cases env.applyOutcome with
  | ok b => cases b <;> rfl
  | raised ve msg => cases ve <;> rfl

theorem strContains_append_suffix (pre msg : String) :
    strContains (pre ++ msg) msg = true := by
  rw [strContains, listContains_iff, String.data_append]
  exact infix_of_append_right pre.data (List.infix_refl msg.data)

/-! ## Parser invariant: denominators are positive -/

theorem parseMantissa_den_pos (l : List Char) (d : PyFloat)
    (h : parseMantissa l = some d) : 0 < d.den := by
  unfold parseMantissa at h
  split at h
  · rcases Option.map_eq_some'.mp h with ⟨n, _, hd⟩
    rw [← hd]
    exact Nat.one_pos
  · split at h
    · exact absurd h (by simp)
    · split at h
      · cases h
        exact pow_pos (by omega) _
      · exact absurd h (by simp)
  · exact absurd h (by simp)

theorem applyExp_den_pos (d : PyFloat) (e : Int) (h : 0 < d.den) :
    0 < (applyExp d e).den := by
  unfold applyExp
  split
  · exact h
  · exact Nat.mul_pos h (pow_pos (by omega) _)

theorem parseUnsigned_den_pos (l : List Char) (d : PyFloat)
    (h : parseUnsigned l = some d) : 0 < d.den := by
  unfold parseUnsigned at h
  rcases hs : List.splitOnP (fun c => c == 'e' || c == 'E') l with _ | ⟨m, _ | ⟨e, _ | ⟨x, rest⟩⟩⟩
  · rw [hs] at h
    exact Option.noConfusion h
  · rw [hs] at h
    exact parseMantissa_den_pos _ _ h
  · rw [hs] at h
    have h2 : (match parseMantissa m, parseExp e with
        | some d, some z => some (applyExp d z)
        | _, _ => none) = some d := h
    cases hm : parseMantissa m with
    | none => rw [hm] at h2; exact Option.noConfusion h2
    | some d0 =>
      cases he : parseExp e with
      | none => rw [hm, he] at h2; exact Option.noConfusion h2
      | some z =>
        rw [hm, he] at h2
        simp only [Option.some.injEq] at h2
        rw [← h2]
        exact applyExp_den_pos d0 z (parseMantissa_den_pos _ _ hm)
  · rw [hs] at h
    exact Option.noConfusion h

theorem pyFloat?_den_pos (s : String) (d : PyFloat)
    (h : pyFloat? s = some d) : 0 < d.den := by
  unfold pyFloat? at h
  split at h
  · exact parseUnsigned_den_pos _ _ h
  · rcases Option.map_eq_some'.mp h with ⟨d0, hd0, hd⟩
    rw [← hd]
    exact parseUnsigned_den_pos _ d0 hd0
  · exact parseUnsigned_den_pos _ _ h

theorem firstFloatToken_den_pos (ts : List String) (d : PyFloat)
    (h : firstFloatToken ts = some d) : 0 < d.den := by
  induction ts with
  | nil => exact absurd h (by simp [firstFloatToken])
  | cons tok rest ih =>
    unfold firstFloatToken at h
    cases hp : pyFloat? tok with
    | some d0 =>
      rw [hp] at h
      simp only [Option.some.injEq] at h
      rw [← h]
      exact pyFloat?_den_pos _ _ hp
    | none =>
      rw [hp] at h
      exact ih h

theorem num_eq_zero_of_toRat_zero (d : PyFloat) (hden : 0 < d.den)
    (hz : d.toRat = 0) : d.num = 0 := by
  unfold PyFloat.toRat at hz
  rcases div_eq_zero_iff.mp hz with h0 | h0
  · exact_mod_cast h0
  · exact absurd (Nat.cast_eq_zero.mp h0) (by omega)

theorem handleQuery_policy_applyCalls (q : String) (u : UserContext) (env : Env)
    (h : classifyIntent q = Intent.policyQuery) :
    (handleQuery q u env).2.applyCalls = [] := by
  unfold handleQuery
  rw [h]
  dsimp only
  have h1 := (queryPolicy_trace env Trace.init).2.1
  have h2 := (queryPolicy_trace env (queryPolicy env Trace.init).2).2.1
  split
  · split
    · dsimp only
      rw [h2, h1]
      rfl
    · dsimp only
      rw [h2, h1]
      rfl
  · dsimp only
    rw [h1]
    rfl

/-- Claim C3 as stated is false on the code: on "apply for leave 0" the first
token parses as a float (value zero), yet the directory is never called and
the usage-guidance string is returned (Python's `if not days:` treats the
parsed 0.0 like the absence of a number). -/
theorem claimC3_cex :
    firstFloatToken (pySplit (normalize "apply for leave 0")) = some (PyFloat.mk 0 1) ∧
    (PyFloat.mk 0 1).toRat = 0 ∧
    (handleQuery "apply for leave 0" u0 env0).2.applyCalls = [] ∧
    (handleQuery "apply for leave 0" u0 env0).1 = guidanceMsg :=
  ⟨by decide, by simp [PyFloat.toRat], by decide, by decide⟩

/-- Claim C3, amended: for every query whose normalized form starts with
"apply for leave", the tokens are scanned left-to-right and the first one
parsing as a float becomes the requested day count; when that count is
nonzero, the directory's apply_for_leave(username, days) is called with
exactly that value; when no token parses — or the parsed value is zero —
the fixed usage-guidance string is returned and the directory is never
called. -/
theorem claimC3 (q : String) (u : UserContext) (env : Env)
    (hq : strStartsWith (normalize q) "apply for leave" = true) :
    (firstFloatToken (pySplit (normalize q)) = none →
      (handleQuery q u env).1 = guidanceMsg ∧ (handleQuery q u env).2.applyCalls = []) ∧
    (∀ d, firstFloatToken (pySplit (normalize q)) = some d → d.num ≠ 0 →
      (handleQuery q u env).2.applyCalls = [(u.username, d)]) ∧
    (∀ d, firstFloatToken (pySplit (normalize q)) = some d → d.num = 0 →
      (handleQuery q u env).1 = guidanceMsg ∧ (handleQuery q u env).2.applyCalls = []) := by
  have hd := handleQuery_leaveApply q u env (classify_of_startsWith q hq)
  refine ⟨?_, ?_, ?_⟩
  · intro h
    rw [hd, handleLeave_none _ _ _ _ h]
    exact ⟨rfl, rfl⟩
  · intro d h hz
    rw [hd, handleLeave_calls _ _ _ _ d h hz]
    rfl
  · intro d h hz
    rw [hd, handleLeave_zero _ _ _ _ d h hz]
    exact ⟨rfl, rfl⟩

/-- Claim C3 (amended) applied to "apply for leave 2.5": the directory is
called with exactly the parsed value 25/10. -/
theorem claimC3_witness :
    (handleQuery "apply for leave 2.5" u0 env0).2.applyCalls =
      [("bob", PyFloat.mk 25 10)] :=
  (claimC3 "apply for leave 2.5" u0 env0 (by decide)).2.1 (PyFloat.mk 25 10)
    (by decide) (by decide)

/-- Claim C10: a leave-apply query whose first parsable token has value zero
is treated exactly like the absence of a parseable number: the usage-guidance
string is returned and the directory is never called. -/
theorem claimC10 (q : String) (u : UserContext) (env : Env) (d : PyFloat)
    (hq : strStartsWith (normalize q) "apply for leave" = true)
    (h : firstFloatToken (pySplit (normalize q)) = some d)
    (hz : d.toRat = 0) :
    (handleQuery q u env).1 = guidanceMsg ∧
    (handleQuery q u env).2.applyCalls = [] ∧
    handleQuery q u env = (guidanceMsg, Trace.init) := by
  have hnum : d.num = 0 :=
    num_eq_zero_of_toRat_zero d (firstFloatToken_den_pos _ _ h) hz
  have hd := handleQuery_leaveApply q u env (classify_of_startsWith q hq)
  rw [hd, handleLeave_zero _ _ _ _ d h hnum]
  exact ⟨rfl, rfl, rfl⟩

/-- Claim C10 applied to "apply for leave 0.0" (parsed value 0/10). -/
theorem claimC10_witness :
    (handleQuery "apply for leave 0.0" u0 env0).1 = guidanceMsg ∧
    (handleQuery "apply for leave 0.0" u0 env0).2.applyCalls = [] ∧
    handleQuery "apply for leave 0.0" u0 env0 = (guidanceMsg, Trace.init) :=
  claimC10 "apply for leave 0.0" u0 env0 (PyFloat.mk 0 10) (by decide) (by decide)
    (by simp [PyFloat.toRat])

/-- Claim C8: the MIN_LEAVE_DAYS/MAX_LEAVE_DAYS bounds are never checked in
the leave-apply workflow: every (username, days) pair passed to the
directory carries exactly the first-parsed day count, unclamped, and
concrete values below 0.5 (0.25) and above 30 (100) are forwarded. -/
theorem claimC8 :
    (∀ q u env p, p ∈ (handleQuery q u env).2.applyCalls →
      firstFloatToken (pySplit (normalize q)) = some p.2 ∧ p.1 = u.username) ∧
    ((handleQuery "apply for leave 0.25" u0 env0).2.applyCalls =
        [("bob", PyFloat.mk 25 100)] ∧
      (PyFloat.mk 25 100).toRat < Config.MIN_LEAVE_DAYS) ∧
    ((handleQuery "apply for leave 100" u0 env0).2.applyCalls =
        [("bob", PyFloat.mk 100 1)] ∧
      Config.MAX_LEAVE_DAYS < (PyFloat.mk 100 1).toRat) := by
  refine ⟨?_, ⟨by decide, ?_⟩, ⟨by decide, ?_⟩⟩
  · intro q u env p hp
    revert hp
    unfold handleQuery
    cases hc : classifyIntent q <;> intro hp
    case leaveApply =>
      rcases handleLeave_applyCalls (normalize q) u env Trace.init with h | ⟨d, hd, hz, hcalls⟩
      · rw [h] at hp
        exact absurd hp (by simp [Trace.init])
      · rw [hcalls] at hp
        have hpd : p = (u.username, d) := by simpa [Trace.init] using hp
        rw [hpd]
        exact ⟨hd, rfl⟩
    case leaveBalance => exact absurd hp (by simp [Trace.init])
    case greeting => exact absurd hp (by simp [Trace.init])
    case help => exact absurd hp (by simp [Trace.init])
    case thanks => exact absurd hp (by simp [Trace.init])
    case policyQuery =>
      have h0 := handleQuery_policy_applyCalls q u env hc
      unfold handleQuery at h0
      rw [hc] at h0
      rw [h0] at hp
      exact absurd hp (by simp)
  · norm_num [PyFloat.toRat, Config.MIN_LEAVE_DAYS]
  · norm_num [PyFloat.toRat, Config.MAX_LEAVE_DAYS]

/-- Claim C8 applied to the out-of-bounds forwarding at 0.25 days. -/
theorem claimC8_witness :
    firstFloatToken (pySplit (normalize "apply for leave 0.25")) =
      some ("bob", PyFloat.mk 25 100).2 ∧
    ("bob", PyFloat.mk 25 100).1 = u0.username :=
  claimC8.1 "apply for leave 0.25" u0 env0 ("bob", PyFloat.mk 25 100) (by decide)

/-- Claim C9: in the leave-apply workflow a directory failure never escapes
as a fault: a false return yields the fixed failure message, and a raised
error yields failure text containing the raised description verbatim. -/
theorem claimC9 (q : String) (u : UserContext) (env : Env) (d : PyFloat)
    (hq : strStartsWith (normalize q) "apply for leave" = true)
    (h : firstFloatToken (pySplit (normalize q)) = some d)
    (hz : d.num ≠ 0) :
    (env.applyOutcome = ApplyOutcome.ok false →
      (handleQuery q u env).1 = applyFailedMsg) ∧
    (∀ b msg, env.applyOutcome = ApplyOutcome.raised b msg →
      strContains (handleQuery q u env).1 msg = true) := by
  have hd := handleQuery_leaveApply q u env (classify_of_startsWith q hq)
  constructor
  · intro hf
    rw [hd]
    unfold handleLeaveApplication
    rw [h]
    dsimp only
    rw [if_neg hz, hf]
  · intro b msg hr
    rw [hd]
    unfold handleLeaveApplication
    rw [h]
    dsimp only
    rw [if_neg hz, hr]
    cases b
    · exact strContains_append_suffix _ msg
    · exact strContains_append_suffix _ msg

/-- Claim C9 applied to a directory that raises "boom" on a 2-day
application: the user-facing text contains the description verbatim. -/
theorem claimC9_witness :
    strContains (handleQuery "apply for leave 2" u0 env9).1 "boom" = true :=
  (claimC9 "apply for leave 2" u0 env9 (PyFloat.mk 2 1) (by decide) (by decide)
    (by decide)).2 false "boom" rfl

theorem handleQuery_policy_trace (q : String) (u : UserContext) (env : Env)
    (h : classifyIntent q = Intent.policyQuery) :
    (handleQuery q u env).2.retrievalCount ≤ 2 ∧
    (handleQuery q u env).2.llmLog.length ≤ 4 := by
  unfold handleQuery
  rw [h]
  dsimp only
  have a1 : (queryPolicy env Trace.init).2.retrievalCount ≤ 1 := by
    simpa [Trace.init] using (queryPolicy_trace env Trace.init).1
  have b1 : (queryPolicy env Trace.init).2.llmLog.length ≤ 2 := by
    simpa [Trace.init] using (queryPolicy_trace env Trace.init).2.2
  have a2 := (queryPolicy_trace env (queryPolicy env Trace.init).2).1
  have b2 := (queryPolicy_trace env (queryPolicy env Trace.init).2).2.2
  split
  · split
    · exact ⟨by dsimp only; omega, by dsimp only; omega⟩
    · exact ⟨by dsimp only; omega, by dsimp only; omega⟩
  · exact ⟨by dsimp only; omega, by dsimp only; omega⟩

/-- Claim C7 as stated is false on the code: when the primary synthesis
result is empty, the retry re-invokes the pipeline from retrieval onwards, so
a single invocation can perform two retrieval calls and three LLM calls (two
primaries plus one summarization) — the total is not bounded by two. -/
theorem claimC7_cex :
    ¬((handleQuery "zzz" u0 env7).2.llmLog.length ≤ 2) ∧
    (handleQuery "zzz" u0 env7).2.llmLog.length = 3 ∧
    (handleQuery "zzz" u0 env7).2.retrievalCount = 2 :=
  ⟨by decide, by decide, by decide⟩

/-- Claim C7, amended: per invocation the pipeline performs at most two
retrieval calls, at most one directory write, and at most four LLM calls (at
most two primary calls — the second only on the retry-on-empty — each
optionally followed by one summarization call; retry and summarization can
co-occur in one invocation). -/
theorem claimC7 (q : String) (u : UserContext) (env : Env) :
    (handleQuery q u env).2.retrievalCount ≤ 2 ∧
    (handleQuery q u env).2.llmLog.length ≤ 4 ∧
    (handleQuery q u env).2.applyCalls.length ≤ 1 := by
  cases hc : classifyIntent q
  case policyQuery =>
    have hx := handleQuery_policy_trace q u env hc
    have hy := handleQuery_policy_applyCalls q u env hc
    exact ⟨hx.1, hx.2, by rw [hy]; decide⟩
  case leaveApply =>
    have hd := handleQuery_leaveApply q u env hc
    rw [hd]
    have h := handleLeave_trace (normalize q) u env Trace.init
    exact ⟨by rw [h.2.1]; decide, by rw [h.1]; decide, le_trans h.2.2 (by decide)⟩
  case leaveBalance =>
    have he : handleQuery q u env =
        (balanceMsg ((env.refreshResult.getD u).remaining_leaves.getD "N/A"), Trace.init) := by
      unfold handleQuery
      rw [hc]
    rw [he]
    exact ⟨(by decide : Trace.init.retrievalCount ≤ 2),
      (by decide : Trace.init.llmLog.length ≤ 4),
      (by decide : Trace.init.applyCalls.length ≤ 1)⟩
  case greeting =>
    have he : handleQuery q u env = (greetingMsg u.username, Trace.init) := by
      unfold handleQuery
      rw [hc]
    rw [he]
    exact ⟨(by decide : Trace.init.retrievalCount ≤ 2),
      (by decide : Trace.init.llmLog.length ≤ 4),
      (by decide : Trace.init.applyCalls.length ≤ 1)⟩
  case help =>
    have he : handleQuery q u env = (helpResponse, Trace.init) := by
      unfold handleQuery
      rw [hc]
    rw [he]
    exact ⟨(by decide : Trace.init.retrievalCount ≤ 2),
      (by decide : Trace.init.llmLog.length ≤ 4),
      (by decide : Trace.init.applyCalls.length ≤ 1)⟩
  case thanks =>
    have he : handleQuery q u env = (thanksMsg, Trace.init) := by
      unfold handleQuery
      rw [hc]
    rw [he]
    exact ⟨(by decide : Trace.init.retrievalCount ≤ 2),
      (by decide : Trace.init.llmLog.length ≤ 4),
      (by decide : Trace.init.applyCalls.length ≤ 1)⟩

/-- Claim C7 (amended) applied at a concrete worst-case oracle. -/
theorem claimC7_witness :
    (handleQuery "zzz" u0 env7).2.retrievalCount ≤ 2 ∧
    (handleQuery "zzz" u0 env7).2.llmLog.length ≤ 4 ∧
    (handleQuery "zzz" u0 env7).2.applyCalls.length ≤ 1 :=
  claimC7 "zzz" u0 env7

/-- Claim C6 as stated is false on the code: the refiner is not idempotent.
On a non-empty answer containing "leave" with a known remaining-leaves value,
one application appends one balance line, but applying the refiner twice
appends the line twice (two 💼-marked balance lines), so the double-refined
text differs from the single-refined text. -/
theorem claimC6_cex :
    (refinePolicyResponse "Our leave policy allows carryover."
      (UserContext.mk "alice" none (some "5"))).data.count '💼' = 1 ∧
    (refinePolicyResponse
      (refinePolicyResponse "Our leave policy allows carryover."
        (UserContext.mk "alice" none (some "5")))
      (UserContext.mk "alice" none (some "5"))).data.count '💼' = 2 ∧
    refinePolicyResponse
      (refinePolicyResponse "Our leave policy allows carryover."
        (UserContext.mk "alice" none (some "5")))
      (UserContext.mk "alice" none (some "5")) ≠
    refinePolicyResponse "Our leave policy allows carryover."
      (UserContext.mk "alice" none (some "5")) :=
  ⟨by decide, by decide, by decide⟩

/-- Claim C6, amended: applied to a non-whitespace answer containing the
case-insensitive term "leave", with a known remaining-leaves value, the
refiner appends exactly one balance line per application — but it is not
idempotent: a second application appends the line a second time (the
💼-marked balance line occurs twice; the marker counts assume the answer and
the balance value are free of the marker). -/
theorem claimC6 (a v : String) (u : UserContext)
    (hv : u.remaining_leaves = some v)
    (hl : strContains (pyLower a) "leave" = true)
    (hs : pyStrip a ≠ "")
    (ha : a.data.count '💼' = 0)
    (hvc : v.data.count '💼' = 0) :
    (refinePolicyResponse a u).data.count '💼' = 1 ∧
    (refinePolicyResponse (refinePolicyResponse a u) u).data.count '💼' = 2 := by
  have hne : ¬(a = "" ∨ pyStrip a = "") := by
    push_neg
    exact ⟨by rintro rfl; exact hs rfl, hs⟩
  have e1 : refinePolicyResponse a u = pyStrip (a ++ balanceLine v) := by
    unfold refinePolicyResponse
    rw [if_neg hne, if_pos ⟨hl, by rw [hv]; rfl⟩, hv]
    rfl
  have count_line : (balanceLine v).data.count '💼' = 1 := by
    unfold balanceLine
    rw [String.data_append, String.data_append, List.count_append, List.count_append, hvc]
    decide
  have hcount1 : (pyStrip (a ++ balanceLine v)).data.count '💼' = 1 := by
    show (stripList (a ++ balanceLine v).data).count '💼' = 1
    rw [count_stripList _ (by decide), String.data_append, List.count_append, ha, count_line]
  have hleave_line : "leave".data <:+: (balanceLine v).data := by
    unfold balanceLine
    rw [String.data_append, String.data_append]
    exact infix_of_append_left _ (infix_of_append_left _ ((listContains_iff _ _).mp (by decide)))
  have hinf_strip : "leave".data <:+: (pyStrip (a ++ balanceLine v)).data := by
    refine infix_stripList "leave".data (a ++ balanceLine v).data (by decide) (by decide) ?_
    rw [String.data_append]
    exact infix_of_append_right _ hleave_line
  have hl1 : strContains (pyLower (pyStrip (a ++ balanceLine v))) "leave" = true := by
    rw [strContains, listContains_iff]
    have hmap := hinf_strip.map Char.toLower
    rw [show "leave".data.map Char.toLower = "leave".data from by decide] at hmap
    exact hmap
  have hs1 : pyStrip (pyStrip (a ++ balanceLine v)) ≠ "" := by
    intro h0
    have hc2 : (pyStrip (pyStrip (a ++ balanceLine v))).data.count '💼' = 1 := by
      show (stripList (pyStrip (a ++ balanceLine v)).data).count '💼' = 1
      rw [count_stripList _ (by decide)]
      exact hcount1
    rw [h0] at hc2
    exact absurd hc2 (by decide)
  have hne1 : ¬(pyStrip (a ++ balanceLine v) = "" ∨
      pyStrip (pyStrip (a ++ balanceLine v)) = "") := by
    push_neg
    refine ⟨?_, hs1⟩
    intro h0
    rw [h0] at hcount1
    exact absurd hcount1 (by decide)
  have e2 : refinePolicyResponse (pyStrip (a ++ balanceLine v)) u =
      pyStrip (pyStrip (a ++ balanceLine v) ++ balanceLine v) := by
    unfold refinePolicyResponse
    rw [if_neg hne1, if_pos ⟨hl1, by rw [hv]; rfl⟩, hv]
    rfl
  have hcount2 :
      (pyStrip (pyStrip (a ++ balanceLine v) ++ balanceLine v)).data.count '💼' = 2 := by
    show (stripList (pyStrip (a ++ balanceLine v) ++ balanceLine v).data).count '💼' = 2
    rw [count_stripList _ (by decide), String.data_append, List.count_append, hcount1,
      count_line]
  constructor
  · rw [e1]
    exact hcount1
  · rw [e1, e2]
    exact hcount2

/-- Claim C6 (amended) applied at a concrete answer and balance value. -/
theorem claimC6_witness :
    (refinePolicyResponse "Annual leave accrues monthly."
      (UserContext.mk "carol" none (some "7"))).data.count '💼' = 1 ∧
    (refinePolicyResponse
      (refinePolicyResponse "Annual leave accrues monthly."
        (UserContext.mk "carol" none (some "7")))
      (UserContext.mk "carol" none (some "7"))).data.count '💼' = 2 :=
  claimC6 "Annual leave accrues monthly." "7" (UserContext.mk "carol" none (some "7"))
    rfl (by decide) (by decide) (by decide) (by decide)

end BankBot
